import Mathlib

/-!
Shallow embedding of the `engine-client` repository (`main.go`): a minimal
Ethereum Engine API JSON-RPC client.  The client owns an endpoint URL, a JWT
signing secret and an HTTP transport with a fixed timeout; it exposes
`ForkchoiceUpdated` and `NewPayload`, each of which mints a fresh HS256 JWT,
builds a JSON-RPC 2.0 envelope and POSTs it.

External effects (the two `time.Now()` readings, `json.Marshal` failure,
`SignedString` failure, `http.NewRequestWithContext` failure and the outcome
of `client.Do`) are threaded explicitly through an `Effects` record, in the
exact order the Go code performs them.
-/

/-- JSON values, the abstract wire data (`interface{}` values that Go's
`encoding/json` produces or consumes). -/
inductive Json where
  | null
  | bool (b : Bool)
  | num (n : Int)
  | str (s : String)
  | arr (elems : List Json)
  | obj (fields : List (String × Json))

/-- A Go `map[string]interface{}` value: `none` is the nil map, `some fields`
a populated map. -/
abbrev GoMap := Option (List (String × Json))

/-- A reading of the wall clock (`time.Time`): whole Unix seconds plus the
sub-second nanosecond component.  `Unix()` returns `sec`. -/
structure Instant where
  sec : Int
  nsec : Nat
deriving DecidableEq

/-- Strict ordering of clock instants (nanosecond precision). -/
def instantLt (a b : Instant) : Bool :=
  a.sec < b.sec || (a.sec == b.sec && a.nsec < b.nsec)

/-- The `EngineClient` struct from `main.go:15-19`: endpoint URL, raw JWT
secret bytes, and the HTTP client whose only configuration is its timeout. -/
structure EngineClient where
  endpoint : String
  jwtSecret : List Nat
  timeoutNs : Int
deriving DecidableEq

/-- `NewEngineClient` from `main.go:33-39`: binds endpoint and secret and
installs a transport with a 10-second timeout. -/
def NewEngineClient (endpoint : String) (jwtSecret : List Nat) : EngineClient :=
  { endpoint := endpoint, jwtSecret := jwtSecret, timeoutNs := 10 * 1000000000 }

/-- `ForkChoiceState` from `main.go:27-31`. -/
structure ForkChoiceState where
  headBlockHash : String
  safeBlockHash : String
  finalizedBlockHash : String
deriving DecidableEq

/-- `PayloadAttributes` from `main.go:21-25`. -/
structure PayloadAttributes where
  timestamp : String
  prevRandao : String
  suggestedFeeRecipient : String
deriving DecidableEq

/-- JSON encoding of `ForkChoiceState` per its struct tags. -/
def stateJson (s : ForkChoiceState) : Json :=
  .obj [("headBlockHash", .str s.headBlockHash),
        ("safeBlockHash", .str s.safeBlockHash),
        ("finalizedBlockHash", .str s.finalizedBlockHash)]

/-- JSON encoding of `PayloadAttributes` per its struct tags. -/
def attrsJson (a : PayloadAttributes) : Json :=
  .obj [("timestamp", .str a.timestamp),
        ("prevRandao", .str a.prevRandao),
        ("suggestedFeeRecipient", .str a.suggestedFeeRecipient)]

/-- JSON encoding of a Go map value: the nil map marshals to `null`. -/
def goMapJson : GoMap → Json
  | none => .null
  | some fields => .obj fields

/-- Injective byte-level encoding of a string: length prefix followed by the
character codes. -/
def encodeString (s : String) : List Nat :=
  (s.data.map Char.toNat).length :: s.data.map Char.toNat

/-- Injective encoding of an integer as a natural number (sign interleaving). -/
def encInt (i : Int) : Nat :=
  if 0 ≤ i then 2 * i.toNat else 2 * (-i).toNat - 1

/-- Injective encoding of one claim (key/value pair). -/
def encodeClaim (p : String × Int) : List Nat :=
  encodeString p.1 ++ [encInt p.2]

/-- Injective encoding of a claims list, the signing input of the token. -/
def encodeClaims (claims : List (String × Int)) : List Nat :=
  (claims.map encodeClaim).flatten

/-- Symbolic model of the HMAC-SHA256 primitive used by the external
`golang-jwt` library: the MAC is idealized as an injective function of the
key and the (injectively encoded) signed claims — the standard collision-free
idealization of a MAC.  Everything the theorems use about it is that it is a
deterministic function of `(key, claims)` and that distinct inputs give
distinct tags. -/
def hmacSHA256 (key : List Nat) (claims : List (String × Int)) : List Nat :=
  key.length :: key ++ encodeClaims claims

/-- A signed JWT: its claims set and its HS256 tag (header and base64
serialization are injective and elided). -/
structure Token where
  claims : List (String × Int)
  sig : List Nat
deriving DecidableEq

/-- HS256 verification: recompute the tag over the claims with the given
secret and compare. -/
def verifyHS256 (secret : List Nat) (t : Token) : Bool :=
  t.sig == hmacSHA256 secret t.claims

/-- The claims set built at `main.go:42-45`: `iat` is the Unix seconds of the
FIRST `time.Now()` reading; `exp` is the Unix seconds of the SECOND
`time.Now()` reading plus 60 (`Add(time.Minute)` adds exactly 60 whole
seconds, so `Unix()` of the sum is `r2.sec + 60`). -/
def jwtClaims (r1 r2 : Instant) : List (String × Int) :=
  [("iat", r1.sec), ("exp", r2.sec + 60)]

/-- `generateJWT` from `main.go:41-48`: builds the two-field claims set from
the two consecutive clock readings and signs it with HS256 under the
configured secret.  `signFails` models the error return of
`token.SignedString` (the Go code checks and propagates it). -/
def generateJWT (c : EngineClient) (r1 r2 : Instant) (signFails : Bool) : Option Token :=
  if signFails then none
  else some { claims := jwtClaims r1 r2
              sig := hmacSHA256 c.jwtSecret (jwtClaims r1 r2) }

/-- Look up a claim by key (Go map indexing on `jwt.MapClaims`). -/
def claimValue (k : String) (claims : List (String × Int)) : Option Int :=
  (claims.find? (fun p => p.1 == k)).map (fun p => p.2)

/-- Causes `client.Do` can fail with: connection-level failure, or the
caller's context being canceled / its deadline expiring (Go surfaces all of
them as the error of `Do`, which `makeRequest` wraps). -/
inductive DoError where
  | connectionFailed
  | contextCanceled
  | deadlineExceeded
deriving DecidableEq

/-- The distinct error values `makeRequest` can return, one per `return nil,
err` site in `main.go:59-92`.  A `transportError` preserves the cause of the
`Do` failure (the Go error string interpolates it), so cancellation and
timeout remain distinguishable from a connection failure; `httpStatusError`
carries the non-200 status code. -/
inductive EngineError where
  | serializationError
  | authError
  | requestBuildError
  | transportError (cause : DoError)
  | httpStatusError (status : Nat)
  | decodeError
deriving DecidableEq

/-- An HTTP response: status code and body.  The body is represented by the
result of reading one JSON value from it: `none` when the body is not valid
JSON, `some v` when it parses as the JSON value `v`. -/
structure HttpResponse where
  status : Nat
  body : Option Json

/-- Outcome of `client.Do`: a transport-level error or a response. -/
inductive DoOutcome where
  | failed (e : DoError)
  | responded (resp : HttpResponse)

/-- The environment of one `makeRequest` call, in the order the Go code
consults it: `json.Marshal` outcome, the two `time.Now()` readings inside
`generateJWT`, the `SignedString` outcome, the `http.NewRequestWithContext`
outcome, and the outcome of `client.Do`. -/
structure Effects where
  marshalFails : Bool
  r1 : Instant
  r2 : Instant
  signFails : Bool
  newRequestFails : Bool
  doResult : DoOutcome

/-- The JSON-RPC 2.0 envelope built at `main.go:52-57`. -/
structure Request where
  jsonrpc : String
  method : String
  params : List Json
  id : Int

/-- Envelope construction: literal `"2.0"`, the given method and params, and
the literal id `1`. -/
def envelope (method : String) (params : List Json) : Request :=
  { jsonrpc := "2.0", method := method, params := params, id := 1 }

/-- The outbound HTTP request assembled at `main.go:70-76`: POST to the
configured endpoint with `Content-Type: application/json` and the fresh
bearer token, carrying the marshalled envelope. -/
structure HttpRequest where
  httpMethod : String
  url : String
  contentType : String
  bearer : Token
  body : Request

/-- Result of decoding a response body. -/
inductive DecodeResult where
  | failed
  | decoded (m : GoMap)

/-- Go's `json.Decoder.Decode` into a `map[string]interface{}` variable:
a body that is not valid JSON fails; a JSON object decodes to the map of its
fields; JSON `null` decodes successfully and leaves the map nil; any other
JSON value (array, string, number, boolean) fails with an unmarshal-type
error. -/
def decodeGoMap : Option Json → DecodeResult
  | none => .failed
  | some (.obj fields) => .decoded (some fields)
  | some .null => .decoded none
  | some _ => .failed

/-- `makeRequest` from `main.go:50-95`, state-passing: returns the Go
`(result, err)` pair together with the client after the call (the method
assigns to no field of the receiver).  Stages, in source order: marshal the
envelope, mint the JWT, build the HTTP request, perform it, reject non-200
statuses, decode the body. -/
def makeRequest (c : EngineClient) (method : String) (params : List Json)
    (fx : Effects) : (GoMap × Option EngineError) × EngineClient :=
  let _request := envelope method params
  if fx.marshalFails then ((none, some .serializationError), c)
  else
    match generateJWT c fx.r1 fx.r2 fx.signFails with
    | none => ((none, some .authError), c)
    | some _token =>
      if fx.newRequestFails then ((none, some .requestBuildError), c)
      else
        match fx.doResult with
        | .failed e => ((none, some (.transportError e)), c)
        | .responded resp =>
          if resp.status ≠ 200 then ((none, some (.httpStatusError resp.status)), c)
          else
            match decodeGoMap resp.body with
            | .failed => ((none, some .decodeError), c)
            | .decoded m => ((m, none), c)

/-- The HTTP request `makeRequest` hands to `client.Do`, when execution
reaches that point (`main.go:70-79`): `none` when an earlier stage failed. -/
def sentRequest (c : EngineClient) (method : String) (params : List Json)
    (fx : Effects) : Option HttpRequest :=
  if fx.marshalFails then none
  else
    match generateJWT c fx.r1 fx.r2 fx.signFails with
    | none => none
    | some token =>
      if fx.newRequestFails then none
      else some { httpMethod := "POST", url := c.endpoint,
                  contentType := "application/json", bearer := token,
                  body := envelope method params }

/-- Params construction of `ForkchoiceUpdated` (`main.go:99-102`): start from
`[state]` and append the attributes only when the pointer is non-nil. -/
def fcuParams (state : ForkChoiceState) (attributes : Option PayloadAttributes) :
    List Json :=
  match attributes with
  | none => [stateJson state]
  | some a => [stateJson state, attrsJson a]

/-- `ForkchoiceUpdated` from `main.go:98-104`. -/
def ForkchoiceUpdated (c : EngineClient) (state : ForkChoiceState)
    (attributes : Option PayloadAttributes) (fx : Effects) :
    (GoMap × Option EngineError) × EngineClient :=
  makeRequest c "engine_forkchoiceUpdatedV1" (fcuParams state attributes) fx

/-- The HTTP request sent on behalf of a `ForkchoiceUpdated` call. -/
def ForkchoiceUpdatedSent (c : EngineClient) (state : ForkChoiceState)
    (attributes : Option PayloadAttributes) (fx : Effects) : Option HttpRequest :=
  sentRequest c "engine_forkchoiceUpdatedV1" (fcuParams state attributes) fx

/-- `NewPayload` from `main.go:106-109`: wraps the payload map in a
one-element params array. -/
def NewPayload (c : EngineClient) (payload : GoMap) (fx : Effects) :
    (GoMap × Option EngineError) × EngineClient :=
  makeRequest c "engine_newPayloadV1" [goMapJson payload] fx

/-- The HTTP request sent on behalf of a `NewPayload` call. -/
def NewPayloadSent (c : EngineClient) (payload : GoMap) (fx : Effects) :
    Option HttpRequest :=
  sentRequest c "engine_newPayloadV1" [goMapJson payload] fx

/-- The two calls the public API can make. -/
inductive ClientCall where
  | forkchoiceUpdated (state : ForkChoiceState) (attributes : Option PayloadAttributes)
  | newPayload (payload : GoMap)

/-- The JSON-RPC envelope each public call builds. -/
def callRequest : ClientCall → Request
  | .forkchoiceUpdated s a => envelope "engine_forkchoiceUpdatedV1" (fcuParams s a)
  | .newPayload p => envelope "engine_newPayloadV1" [goMapJson p]

/-- The first stage of `makeRequest` that fails, if any. -/
inductive FailureCause where
  | marshalFailed
  | signFailed
  | newRequestFailed
  | doFailed (e : DoError)
  | badStatus (status : Nat)
  | decodeFailed
deriving DecidableEq

/-- Which stage of `makeRequest` fails first under the given effects. -/
def failureCause (fx : Effects) : Option FailureCause :=
  if fx.marshalFails then some .marshalFailed
  else if fx.signFails then some .signFailed
  else if fx.newRequestFails then some .newRequestFailed
  else
    match fx.doResult with
    | .failed e => some (.doFailed e)
    | .responded resp =>
      if resp.status ≠ 200 then some (.badStatus resp.status)
      else
        match decodeGoMap resp.body with
        | .failed => some .decodeFailed
        | .decoded _ => none

/-- The error value each failure cause surfaces as.  The spec's taxonomy maps
onto it: SerializationError ↦ `serializationError`, AuthError ↦ `authError`,
TransportError ↦ `transportError .connectionFailed` / `httpStatusError` /
`requestBuildError`, DecodeError ↦ `decodeError`, CanceledError and
TimeoutError ↦ `transportError .contextCanceled` and
`transportError .deadlineExceeded`. -/
def errorOfCause : FailureCause → EngineError
  | .marshalFailed => .serializationError
  | .signFailed => .authError
  | .newRequestFailed => .requestBuildError
  | .doFailed e => .transportError e
  | .badStatus s => .httpStatusError s
  | .decodeFailed => .decodeError

/-- The successful result of `makeRequest`, `none` on any failure (and also
for a `null` body, which decodes to the nil map). -/
def mrResult (fx : Effects) : GoMap :=
  if fx.marshalFails || fx.signFails || fx.newRequestFails then none
  else
    match fx.doResult with
    | .failed _ => none
    | .responded resp =>
      if resp.status ≠ 200 then none
      else
        match decodeGoMap resp.body with
        | .failed => none
        | .decoded m => m

/-! ## Example inputs used by witnesses and counterexamples -/

/-- A concrete client (secret is the bytes of a short test secret). -/
def exampleClient : EngineClient :=
  NewEngineClient "http://localhost:8551" [116, 101, 115, 116]

/-- A concrete fork-choice state. -/
def exampleState : ForkChoiceState :=
  { headBlockHash := "0x01", safeBlockHash := "0x02", finalizedBlockHash := "0x03" }

/-- Effects of a clean run returning HTTP 200 with the given body; both clock
readings at Unix time 0. -/
def okEffects (body : Option Json) : Effects :=
  { marshalFails := false, r1 := ⟨0, 0⟩, r2 := ⟨0, 0⟩, signFails := false,
    newRequestFails := false, doResult := .responded ⟨200, body⟩ }

/-! ## Helper lemmas -/

/-- Full characterization of `makeRequest`: the error is `errorOfCause` of the
first failing stage, the result is `mrResult`, and the client is returned
unchanged. -/
theorem makeRequest_eq (c : EngineClient) (m : String) (ps : List Json)
    (fx : Effects) :
    makeRequest c m ps fx
      = ((mrResult fx, Option.map errorOfCause (failureCause fx)), c) := by
  unfold makeRequest mrResult failureCause generateJWT
  cases h1 : fx.marshalFails
  · cases h2 : fx.signFails
    · cases h3 : fx.newRequestFails
      · cases h4 : fx.doResult with
        | failed e => simp [h4, errorOfCause]
        | responded resp =>
          by_cases h5 : resp.status = 200
          · cases h6 : decodeGoMap resp.body <;>
              simp [h4, h5, h6, errorOfCause]
          · simp [h4, h5, errorOfCause]
      · simp [h3, errorOfCause]
    · simp [h2, errorOfCause]
  · simp [h1, errorOfCause]

/-- If any stage fails, the Go result map is nil. -/
theorem mrResult_of_cause (fx : Effects) (k : FailureCause)
    (h : failureCause fx = some k) : mrResult fx = none := by
  unfold failureCause at h
  unfold mrResult
  cases h1 : fx.marshalFails
  · cases h2 : fx.signFails
    · cases h3 : fx.newRequestFails
      · simp only [h1, h2, h3] at h ⊢
        cases h4 : fx.doResult with
        | failed e => simp [h4]
        | responded resp =>
          simp only [h4] at h ⊢
          by_cases h5 : resp.status = 200
          · cases h6 : decodeGoMap resp.body <;> simp [h5, h6] at h ⊢
          · simp [h5]
      · simp [h3]
    · simp [h2]
  · simp [h1]

/-- Shape of the HTTP request handed to `client.Do`, whenever one is sent at
all: POST to the endpoint, JSON content type, the freshly minted token as
bearer, and the JSON-RPC envelope as body. -/
theorem sentRequest_eq_some (c : EngineClient) (m : String) (ps : List Json)
    (fx : Effects) (req : HttpRequest) (h : sentRequest c m ps fx = some req) :
    req = { httpMethod := "POST", url := c.endpoint,
            contentType := "application/json",
            bearer := { claims := jwtClaims fx.r1 fx.r2,
                        sig := hmacSHA256 c.jwtSecret (jwtClaims fx.r1 fx.r2) },
            body := envelope m ps } := by
  unfold sentRequest generateJWT at h
  cases h1 : fx.marshalFails <;> simp only [h1] at h
  · cases h2 : fx.signFails <;> simp only [h2] at h
    · cases h3 : fx.newRequestFails <;> simp only [h3] at h
      · simp only [Bool.false_eq_true, if_false, Option.some.injEq] at h
        exact h.symm
      · simp at h
    · simp at h
  · simp at h

/-- The integer encoding is injective. -/
theorem encInt_injective (i j : Int) (h : encInt i = encInt j) : i = j := by
  simp only [encInt] at h
  split_ifs at h <;> omega

/-! ## Further example inputs -/

/-- The HTTP request a clean `ForkchoiceUpdated exampleState` run sends when
both clock readings are Unix time 0. -/
def exampleFcuReq : HttpRequest :=
  { httpMethod := "POST", url := exampleClient.endpoint,
    contentType := "application/json",
    bearer := { claims := jwtClaims ⟨0, 0⟩ ⟨0, 0⟩,
                sig := hmacSHA256 exampleClient.jwtSecret (jwtClaims ⟨0, 0⟩ ⟨0, 0⟩) },
    body := envelope "engine_forkchoiceUpdatedV1" (fcuParams exampleState none) }

/-- The HTTP request a clean `NewPayload` run with nil payload sends. -/
def exampleNpReq : HttpRequest :=
  { httpMethod := "POST", url := exampleClient.endpoint,
    contentType := "application/json",
    bearer := { claims := jwtClaims ⟨0, 0⟩ ⟨0, 0⟩,
                sig := hmacSHA256 exampleClient.jwtSecret (jwtClaims ⟨0, 0⟩ ⟨0, 0⟩) },
    body := envelope "engine_newPayloadV1" [goMapJson none] }

/-- Effects of a run whose `json.Marshal` fails. -/
def failFx : Effects :=
  { marshalFails := true, r1 := ⟨0, 0⟩, r2 := ⟨0, 0⟩, signFails := false,
    newRequestFails := false, doResult := .responded ⟨200, some (.obj [])⟩ }

/-! ## Claim theorems -/

/-- C2: every JSON-RPC envelope a public operation builds has
`jsonrpc = "2.0"` and `id = 1`, and its method is exactly
`"engine_forkchoiceUpdatedV1"` or `"engine_newPayloadV1"`; moreover the body
of every HTTP request actually sent by `ForkchoiceUpdated` or `NewPayload` is
exactly that envelope, so no other method string is ever sent. -/
theorem c2_envelope_invariants (call : ClientCall) (c : EngineClient)
    (s : ForkChoiceState) (a : Option PayloadAttributes) (p : GoMap)
    (fx : Effects) (req1 req2 : HttpRequest) :
    ((callRequest call).jsonrpc = "2.0" ∧ (callRequest call).id = 1 ∧
      ((callRequest call).method = "engine_forkchoiceUpdatedV1" ∨
        (callRequest call).method = "engine_newPayloadV1")) ∧
    (ForkchoiceUpdatedSent c s a fx = some req1 →
      req1.body = callRequest (.forkchoiceUpdated s a)) ∧
    (NewPayloadSent c p fx = some req2 →
      req2.body = callRequest (.newPayload p)) := by
  refine ⟨?_, ?_, ?_⟩
  · cases call <;> simp [callRequest, envelope]
  · intro h
    rw [sentRequest_eq_some _ _ _ _ _ h]
    rfl
  · intro h
    rw [sentRequest_eq_some _ _ _ _ _ h]
    rfl

/-- C2 witness: concrete envelopes and concrete sent requests realizing the
invariants. -/
theorem c2_envelope_invariants_witness :
    ((callRequest (.forkchoiceUpdated exampleState none)).jsonrpc = "2.0" ∧
      (callRequest (.forkchoiceUpdated exampleState none)).id = 1 ∧
      ((callRequest (.forkchoiceUpdated exampleState none)).method
          = "engine_forkchoiceUpdatedV1" ∨
        (callRequest (.forkchoiceUpdated exampleState none)).method
          = "engine_newPayloadV1")) ∧
    exampleFcuReq.body = callRequest (.forkchoiceUpdated exampleState none) ∧
    exampleNpReq.body = callRequest (.newPayload none) := by
  obtain ⟨h1, h2, h3⟩ := c2_envelope_invariants
    (.forkchoiceUpdated exampleState none) exampleClient exampleState none none
    (okEffects (some (.obj []))) exampleFcuReq exampleNpReq
  exact ⟨h1, h2 rfl, h3 rfl⟩

/-- C3: `ForkchoiceUpdated` params are `[state]` when the attributes pointer
is nil and `[state, attributes]` when it is non-nil; there is no second
element in the nil case (nothing is sent as `null`), and no element of the
params array is ever the JSON `null`. -/
theorem c3_fcu_params_arity (s : ForkChoiceState) (a : PayloadAttributes)
    (attrs : Option PayloadAttributes) :
    fcuParams s none = [stateJson s] ∧
    fcuParams s (some a) = [stateJson s, attrsJson a] ∧
    (fcuParams s none).length = 1 ∧
    (fcuParams s (some a)).length = 2 ∧
    (fcuParams s none)[1]? = none ∧
    (∀ j, j ∈ fcuParams s attrs → j ≠ Json.null) := by
  refine ⟨rfl, rfl, rfl, rfl, rfl, ?_⟩
  intro j hj
  cases attrs with
  | none =>
    simp [fcuParams] at hj
    subst hj
    simp [stateJson]
  | some a0 =>
    simp [fcuParams] at hj
    rcases hj with h | h <;> subst h
    · simp [stateJson]
    · simp [attrsJson]

/-- C3 witness: the nil-attributes arity at a concrete state, and the concrete
head element is not `null`. -/
theorem c3_fcu_params_arity_witness :
    fcuParams exampleState none = [stateJson exampleState] ∧
    stateJson exampleState ≠ Json.null := by
  refine ⟨(c3_fcu_params_arity exampleState ⟨"0x0", "0x0", "0x0"⟩ none).1, ?_⟩
  exact (c3_fcu_params_arity exampleState ⟨"0x0", "0x0", "0x0"⟩ none).2.2.2.2.2
    (stateJson exampleState) (by simp [fcuParams])

/-- C4: `NewPayload` calls `makeRequest` with method `"engine_newPayloadV1"`
and a params array that is exactly the one-element `[payload]`, the payload
encoded verbatim (the nil map as JSON `null`), for every payload including
nil. -/
theorem c4_new_payload_params (c : EngineClient) (payload : GoMap) (fx : Effects) :
    NewPayload c payload fx
      = makeRequest c "engine_newPayloadV1" [goMapJson payload] fx ∧
    (callRequest (.newPayload payload)).method = "engine_newPayloadV1" ∧
    (callRequest (.newPayload payload)).params = [goMapJson payload] ∧
    (callRequest (.newPayload payload)).params.length = 1 :=
  ⟨rfl, rfl, rfl, rfl⟩

/-- C9: the client record is returned unchanged by `makeRequest`,
`ForkchoiceUpdated` and `NewPayload`, whatever the effects (success or any
failure): endpoint, secret and transport configuration are the same after
the call as before it. -/
theorem c9_client_immutable (c : EngineClient) (s : ForkChoiceState)
    (a : Option PayloadAttributes) (payload : GoMap) (m : String)
    (ps : List Json) (fx : Effects) :
    (makeRequest c m ps fx).2 = c ∧
    (ForkchoiceUpdated c s a fx).2 = c ∧
    (NewPayload c payload fx).2 = c ∧
    (makeRequest c m ps fx).2.endpoint = c.endpoint ∧
    (makeRequest c m ps fx).2.jwtSecret = c.jwtSecret ∧
    (makeRequest c m ps fx).2.timeoutNs = c.timeoutNs := by
  have h := makeRequest_eq c m ps fx
  have h1 := makeRequest_eq c "engine_forkchoiceUpdatedV1" (fcuParams s a) fx
  have h2 := makeRequest_eq c "engine_newPayloadV1" [goMapJson payload] fx
  refine ⟨?_, ?_, ?_, ?_, ?_, ?_⟩ <;>
    simp [ForkchoiceUpdated, NewPayload, h, h1, h2]

/-- C10: whenever `makeRequest` (hence `ForkchoiceUpdated` or `NewPayload`)
returns an error, the returned result map is nil — no partial result
accompanies an error. -/
theorem c10_result_error_exclusive (c : EngineClient) (m : String)
    (ps : List Json) (s : ForkChoiceState) (a : Option PayloadAttributes)
    (payload : GoMap) (fx : Effects) (e : EngineError) :
    ((makeRequest c m ps fx).1.2 = some e → (makeRequest c m ps fx).1.1 = none) ∧
    ((ForkchoiceUpdated c s a fx).1.2 = some e →
      (ForkchoiceUpdated c s a fx).1.1 = none) ∧
    ((NewPayload c payload fx).1.2 = some e →
      (NewPayload c payload fx).1.1 = none) := by
  have key : ∀ mm pp,
      (makeRequest c mm pp fx).1.2 = some e → (makeRequest c mm pp fx).1.1 = none := by
    intro mm pp h
    rw [makeRequest_eq] at h
    rw [makeRequest_eq]
    cases hk : failureCause fx with
    | none => rw [hk] at h; simp at h
    | some k => simpa using mrResult_of_cause fx k hk
  exact ⟨key m ps, key _ _, key _ _⟩

/-- C10 witness: a failing run (marshal failure) with a nil result. -/
theorem c10_result_error_exclusive_witness :
    (makeRequest exampleClient "engine_newPayloadV1" [] failFx).1.1 = none :=
  (c10_result_error_exclusive exampleClient "engine_newPayloadV1" []
    exampleState none none failFx .serializationError).1 rfl

/-- Effects of a run answered with HTTP 401 and an arbitrary body. -/
def non200Effects : Effects :=
  { marshalFails := false, r1 := ⟨0, 0⟩, r2 := ⟨0, 0⟩, signFails := false,
    newRequestFails := false,
    doResult := .responded ⟨401, some (.obj [("error", .str "unauthorized")])⟩ }

/-- C5: when the server responds with any status other than 200, the call
fails with the error carrying that status code, the result is nil, and the
outcome is independent of the response body (the body is never decoded in
this case). -/
theorem c5_non200_status (c : EngineClient) (s : ForkChoiceState)
    (a : Option PayloadAttributes) (payload : GoMap) (m : String)
    (ps : List Json) (fx : Effects) (st : Nat) (b b' : Option Json)
    (hm : fx.marshalFails = false) (hs : fx.signFails = false)
    (hr : fx.newRequestFails = false)
    (hdo : fx.doResult = .responded ⟨st, b⟩) (hst : st ≠ 200) :
    (makeRequest c m ps fx).1 = (none, some (.httpStatusError st)) ∧
    (ForkchoiceUpdated c s a fx).1 = (none, some (.httpStatusError st)) ∧
    (NewPayload c payload fx).1 = (none, some (.httpStatusError st)) ∧
    makeRequest c m ps { fx with doResult := .responded ⟨st, b'⟩ }
      = makeRequest c m ps fx := by
  have key : ∀ (fx2 : Effects), fx2.marshalFails = false → fx2.signFails = false →
      fx2.newRequestFails = false →
      ∀ bb, fx2.doResult = DoOutcome.responded ⟨st, bb⟩ →
      ∀ mm pp, makeRequest c mm pp fx2
        = ((none, some (.httpStatusError st)), c) := by
    intro fx2 h1 h2 h3 bb h4 mm pp
    unfold makeRequest generateJWT
    rw [h1, h2, h3, h4]
    simp [hst]
  refine ⟨?_, ?_, ?_, ?_⟩
  · rw [key fx hm hs hr b hdo m ps]
  · show (makeRequest c _ _ fx).1 = _
    rw [key fx hm hs hr b hdo _ _]
  · show (makeRequest c _ _ fx).1 = _
    rw [key fx hm hs hr b hdo _ _]
  · rw [key { fx with doResult := .responded ⟨st, b'⟩ } hm hs hr b' rfl m ps,
        key fx hm hs hr b hdo m ps]

/-- C5 witness: a concrete 401 response with a JSON body produces the
status-carrying error and no result. -/
theorem c5_non200_status_witness :
    (ForkchoiceUpdated exampleClient exampleState none non200Effects).1
      = (none, some (.httpStatusError 401)) :=
  (c5_non200_status exampleClient exampleState none none "engine_newPayloadV1"
    [] non200Effects 401 (some (.obj [("error", .str "unauthorized")])) none
    rfl rfl rfl rfl (by decide)).2.1

/-- Effects of a run answered with HTTP 200 whose body is the valid JSON
array `[]`. -/
def arrayBodyEffects : Effects :=
  { marshalFails := false, r1 := ⟨0, 0⟩, r2 := ⟨0, 0⟩, signFails := false,
    newRequestFails := false, doResult := .responded ⟨200, some (.arr [])⟩ }

/-- C6 counterexample: an HTTP 200 response whose body is the VALID JSON value
`[]` (an array) is decoded into a `map[string]interface{}` variable, which
fails: `NewPayload` returns the decode error and no mapping.  This refutes
the claim that every valid-JSON 200 body is returned decoded as a
string-keyed mapping. -/
theorem c6_counterexample :
    arrayBodyEffects.doResult = DoOutcome.responded ⟨200, some (.arr [])⟩ ∧
    (NewPayload exampleClient none arrayBodyEffects).1
      = (none, some .decodeError) :=
  ⟨rfl, rfl⟩

/-- C6 amended: on an HTTP 200 response, a body that is a valid JSON OBJECT is
returned decoded as the string-keyed mapping of its fields, unmodified and
with no check for a `result` field; a body that is JSON `null` decodes to the
nil mapping; any other body — invalid JSON, or a valid JSON value that is not
an object — fails with the decode error and no result. -/
theorem c6_decode_behavior (c : EngineClient) (m : String) (ps : List Json)
    (fx : Effects) (b : Option Json)
    (hm : fx.marshalFails = false) (hs : fx.signFails = false)
    (hr : fx.newRequestFails = false)
    (hdo : fx.doResult = .responded ⟨200, b⟩) :
    (∀ fields, b = some (.obj fields) →
      (makeRequest c m ps fx).1 = (some fields, none)) ∧
    (b = some .null → (makeRequest c m ps fx).1 = (none, none)) ∧
    (decodeGoMap b = .failed →
      (makeRequest c m ps fx).1 = (none, some .decodeError)) ∧
    (b = none → decodeGoMap b = .failed) := by
  have key : (makeRequest c m ps fx).1
      = (match decodeGoMap b with
         | .failed => (none, some .decodeError)
         | .decoded mm => (mm, none)) := by
    unfold makeRequest generateJWT
    rw [hm, hs, hr, hdo]
    cases hd : decodeGoMap b <;> simp [hd]
  refine ⟨?_, ?_, ?_, ?_⟩
  · intro fields hb
    subst hb
    rw [key]
    rfl
  · intro hb
    subst hb
    rw [key]
    rfl
  · intro hd
    rw [key, hd]
  · intro hb
    subst hb
    rfl

/-- C6 witness: a concrete 200 response with an object body is passed through
verbatim. -/
theorem c6_decode_behavior_witness :
    (makeRequest exampleClient "engine_newPayloadV1" []
        (okEffects (some (.obj [("payloadStatus", .str "VALID")])))).1
      = (some [("payloadStatus", .str "VALID")], none) :=
  ((c6_decode_behavior exampleClient "engine_newPayloadV1" []
    (okEffects (some (.obj [("payloadStatus", .str "VALID")])))
    (some (.obj [("payloadStatus", .str "VALID")]))
    rfl rfl rfl rfl).1 [("payloadStatus", .str "VALID")] rfl)

/-- C8: the error surfaced by `makeRequest` is exactly `errorOfCause` of the
first failing stage — serialization, JWT signing, request construction,
transport (connection failure, cancellation or deadline, each preserved as
the cause), non-200 status (carrying the code), or decoding — and
`errorOfCause` is injective, so the kinds are pairwise distinguishable by the
caller and never collapsed. -/
theorem c8_error_kinds (c : EngineClient) (m : String) (ps : List Json)
    (fx : Effects) :
    (makeRequest c m ps fx).1.2 = Option.map errorOfCause (failureCause fx) ∧
    Function.Injective errorOfCause := by
  constructor
  · rw [makeRequest_eq]
  · intro k1 k2 h
    cases k1 <;> cases k2 <;> simp_all [errorOfCause]

/-- C8 witness: a concrete failing run surfaces its kind, and injectivity
applied at a concrete cause. -/
theorem c8_error_kinds_witness :
    (makeRequest exampleClient "engine_newPayloadV1" [] failFx).1.2
      = some EngineError.serializationError ∧
    FailureCause.doFailed .contextCanceled = FailureCause.doFailed .contextCanceled := by
  constructor
  · rw [(c8_error_kinds exampleClient "engine_newPayloadV1" [] failFx).1]
    rfl
  · exact (c8_error_kinds exampleClient "engine_newPayloadV1" [] failFx).2 rfl

/-- Effects of a clean run in which the first `time.Now()` reading falls at
0.9 s and the second at 1.0 s — the clock ticks over a Unix-second boundary
between the two reads inside `generateJWT`. -/
def skewEffects : Effects :=
  { marshalFails := false, r1 := ⟨0, 900000000⟩, r2 := ⟨1, 0⟩, signFails := false,
    newRequestFails := false, doResult := .responded ⟨200, some (.obj [])⟩ }

/-- C1 counterexample: `generateJWT` reads the clock once for `iat`
(`main.go:43`) and AGAIN for `exp` (`main.go:44`); when the second reading
falls in the next Unix second, the token sent on behalf of a
`ForkchoiceUpdated` request has `iat = 0` and `exp = 61`, so `exp ≠ iat + 60`
— the validity window is 61 seconds, not exactly 60. -/
theorem c1_counterexample :
    Option.map (fun req => (claimValue "iat" req.bearer.claims,
                            claimValue "exp" req.bearer.claims))
        (ForkchoiceUpdatedSent exampleClient exampleState none skewEffects)
      = some (some 0, some 61) ∧ ((61 : Int) ≠ 0 + 60) := by
  exact ⟨rfl, by decide⟩

/-- C1 amended: every request sent on behalf of `ForkchoiceUpdated` or
`NewPayload` carries a token whose claims set has exactly the two keys `iat`
and `exp`, with `iat` the Unix seconds of the first clock reading and `exp`
the Unix seconds of the second clock reading plus 60 — hence
`exp = iat + 60` exactly whenever both readings fall in the same Unix second
— and whose signature verifies under HMAC-SHA256 (symbolic model) with the
configured secret. -/
theorem c1_jwt_shape (c : EngineClient) (s : ForkChoiceState)
    (a : Option PayloadAttributes) (p : GoMap) (fx : Effects) (req : HttpRequest)
    (h : ForkchoiceUpdatedSent c s a fx = some req ∨ NewPayloadSent c p fx = some req) :
    req.bearer.claims.map Prod.fst = ["iat", "exp"] ∧
    claimValue "iat" req.bearer.claims = some fx.r1.sec ∧
    claimValue "exp" req.bearer.claims = some (fx.r2.sec + 60) ∧
    verifyHS256 c.jwtSecret req.bearer = true ∧
    (fx.r1.sec = fx.r2.sec →
      claimValue "exp" req.bearer.claims
        = Option.map (fun v => v + 60) (claimValue "iat" req.bearer.claims)) := by
  have hreq : req.bearer = { claims := jwtClaims fx.r1 fx.r2,
                             sig := hmacSHA256 c.jwtSecret (jwtClaims fx.r1 fx.r2) } := by
    rcases h with h | h
    · rw [sentRequest_eq_some _ _ _ _ _ h]
    · rw [sentRequest_eq_some _ _ _ _ _ h]
  rw [hreq]
  refine ⟨rfl, rfl, rfl, ?_, ?_⟩
  · simp [verifyHS256]
  · intro heq
    show some (fx.r2.sec + 60) = Option.map (fun v => v + 60) (some fx.r1.sec)
    rw [heq]
    rfl

/-- C1 witness: a clean run with both readings at Unix time 0 mints the
two-field token with `iat = 0`, `exp = 60`, verifying under the secret. -/
theorem c1_jwt_shape_witness :
    exampleFcuReq.bearer.claims.map Prod.fst = ["iat", "exp"] ∧
    claimValue "iat" exampleFcuReq.bearer.claims = some 0 ∧
    claimValue "exp" exampleFcuReq.bearer.claims = some 60 ∧
    verifyHS256 exampleClient.jwtSecret exampleFcuReq.bearer = true ∧
    claimValue "exp" exampleFcuReq.bearer.claims
      = Option.map (fun v => v + 60) (claimValue "iat" exampleFcuReq.bearer.claims) := by
  obtain ⟨h1, h2, h3, h4, h5⟩ := c1_jwt_shape exampleClient exampleState none none
    (okEffects (some (.obj []))) exampleFcuReq (Or.inl rfl)
  exact ⟨h1, h2, h3, h4, h5 rfl⟩

/-- C7 counterexample: two `generateJWT` calls separated by a nonzero interval
(every reading of the second call is strictly later than every reading of the
first, by a few nanoseconds) mint IDENTICAL tokens — same `iat`, same
signature — because `time.Now().Unix()` truncates to whole seconds.  This
refutes the claim that ANY nonzero separation changes `iat` and the
signature. -/
theorem c7_counterexample :
    generateJWT exampleClient ⟨0, 0⟩ ⟨0, 1⟩ false
      = generateJWT exampleClient ⟨0, 2⟩ ⟨0, 3⟩ false ∧
    instantLt ⟨0, 1⟩ ⟨0, 2⟩ = true :=
  ⟨rfl, rfl⟩

/-- Reduction of the signing-input encoding for the two-claim set. -/
theorem encodeClaims_iat_exp (v w : Int) :
    encodeClaims [("iat", v), ("exp", w)]
      = [3, 105, 97, 116] ++ encInt v :: [3, 101, 120, 112] ++ [encInt w] := rfl

/-- C7 amended: the minted token is a pure function of the secret and the two
clock readings — nothing is cached or reused — so two calls whose readings
agree at Unix-second granularity mint equal tokens, while two calls whose
first readings fall in different Unix seconds mint tokens differing both in
their `iat` claim and in their signature. -/
theorem c7_freshness (c : EngineClient) (r1 r2 r1' r2' : Instant) (t t' : Token)
    (h : generateJWT c r1 r2 false = some t)
    (h' : generateJWT c r1' r2' false = some t')
    (hne : r1.sec ≠ r1'.sec) :
    claimValue "iat" t.claims ≠ claimValue "iat" t'.claims ∧
    t.sig ≠ t'.sig ∧
    (∀ u1 u2 u1' u2' : Instant, u1.sec = u1'.sec → u2.sec = u2'.sec →
      generateJWT c u1 u2 false = generateJWT c u1' u2' false) := by
  have ht : t = { claims := jwtClaims r1 r2,
                  sig := hmacSHA256 c.jwtSecret (jwtClaims r1 r2) } := by
    simpa [generateJWT] using h.symm
  have ht' : t' = { claims := jwtClaims r1' r2',
                    sig := hmacSHA256 c.jwtSecret (jwtClaims r1' r2') } := by
    simpa [generateJWT] using h'.symm
  subst ht ht'
  refine ⟨?_, ?_, ?_⟩
  · exact fun hc => hne (Option.some.inj hc)
  · intro hsig
    have h1 : c.jwtSecret.length :: c.jwtSecret ++ encodeClaims (jwtClaims r1 r2)
        = c.jwtSecret.length :: c.jwtSecret ++ encodeClaims (jwtClaims r1' r2') := hsig
    have h2 : encodeClaims (jwtClaims r1 r2) = encodeClaims (jwtClaims r1' r2') := by
      injection h1 with _ htail
      exact List.append_cancel_left htail
    rw [show jwtClaims r1 r2 = [("iat", r1.sec), ("exp", r2.sec + 60)] from rfl,
        show jwtClaims r1' r2' = [("iat", r1'.sec), ("exp", r2'.sec + 60)] from rfl,
        encodeClaims_iat_exp, encodeClaims_iat_exp] at h2
    simp at h2
    exact hne (encInt_injective _ _ h2.1)
  · intro u1 u2 u1' u2' e1 e2
    simp [generateJWT, jwtClaims, e1, e2]

/-- Concrete token minted with both readings at Unix second 0. -/
def tokenA : Token :=
  { claims := jwtClaims ⟨0, 0⟩ ⟨0, 0⟩,
    sig := hmacSHA256 exampleClient.jwtSecret (jwtClaims ⟨0, 0⟩ ⟨0, 0⟩) }

/-- Concrete token minted with both readings at Unix second 5. -/
def tokenB : Token :=
  { claims := jwtClaims ⟨5, 0⟩ ⟨5, 0⟩,
    sig := hmacSHA256 exampleClient.jwtSecret (jwtClaims ⟨5, 0⟩ ⟨5, 0⟩) }

/-- C7 witness: calls five seconds apart differ in `iat` and signature; calls
within one second mint equal tokens. -/
theorem c7_freshness_witness :
    claimValue "iat" tokenA.claims ≠ claimValue "iat" tokenB.claims ∧
    tokenA.sig ≠ tokenB.sig ∧
    generateJWT exampleClient ⟨0, 1⟩ ⟨0, 2⟩ false
      = generateJWT exampleClient ⟨0, 3⟩ ⟨0, 4⟩ false := by
  obtain ⟨h1, h2, h3⟩ := c7_freshness exampleClient ⟨0, 0⟩ ⟨0, 0⟩ ⟨5, 0⟩ ⟨5, 0⟩
    tokenA tokenB rfl rfl (by decide)
  exact ⟨h1, h2, h3 ⟨0, 1⟩ ⟨0, 2⟩ ⟨0, 3⟩ ⟨0, 4⟩ rfl rfl⟩
